import Mathlib

/-!
Shallow embedding of `text_classifier.py` (AI-Powered-Text-Classification-Tool).

The engine (`TextClassifier`) is modelled as pure Lean functions:
* Python strings are `String` / `List Char`; `str.strip`, `str.startswith`,
  `str.endswith`, slicing and `str.format` are modelled directly on `List Char`.
* `json.loads` is modelled by an executable recursive-descent JSON parser
  (`json_loads_chars`); a JSON number is kept unreduced as `jnum m d = m / 10^d`.
* The OpenAI chat-completion call is an oracle `remote : String → Except String String`
  mapping the rendered prompt to either a raised transport error or the raw
  response text; `classifyCore` additionally counts how many times the oracle
  was invoked, to express the "no remote call on empty input" property.
* Raised Python exceptions become `Except` errors.
-/

namespace TC

/-- JSON values as produced by `json.loads`. `jnum m d` denotes the number
`m / 10 ^ d` (mantissa and power-of-ten denominator, kept unreduced). -/
inductive Json where
  | jnull : Json
  | jbool : Bool → Json
  | jnum : Int → Nat → Json
  | jstr : String → Json
  | jarr : List Json → Json
  | jobj : List (String × Json) → Json
deriving Repr

/-- JSON insignificant whitespace (RFC 8259, as accepted by `json.loads`). -/
def isJsonWs (c : Char) : Bool :=
  c == ' ' || c == '\t' || c == '\n' || c == '\r'

/-- Skip insignificant whitespace. -/
def skipWs (l : List Char) : List Char := l.dropWhile isJsonWs

/-- Numeric value of a decimal digit string (digits only). -/
def digitsVal (l : List Char) : Nat :=
  l.foldl (fun a c => a * 10 + (c.toNat - 48)) 0

/-- Split a nonempty run of leading decimal digits; fails on no digit. -/
def parseDigits (l : List Char) : Option (List Char × List Char) :=
  let ds := l.takeWhile Char.isDigit
  if ds.isEmpty then none else some (ds, l.drop ds.length)

/-- Parse a JSON number (int part, optional fraction, optional exponent),
returning the value and the unconsumed input. Mirrors the grammar accepted by
`json.loads` (leading zeros rejected, `NaN`/`Infinity` extensions omitted). -/
def parseNumber (s : List Char) : Option (Json × List Char) :=
  let (neg, s1) := match s with
    | '-' :: r => (true, r)
    | _ => (false, s)
  match parseDigits s1 with
  | none => none
  | some (ids, s2) =>
    if ids.length > 1 && ids.headD '0' == '0' then none
    else
      let step2 : Option (Nat × Nat × List Char) :=
        match s2 with
        | '.' :: r =>
          match parseDigits r with
          | none => none
          | some (fds, s3) => some (digitsVal ids * 10 ^ fds.length + digitsVal fds, fds.length, s3)
        | _ => some (digitsVal ids, 0, s2)
      match step2 with
      | none => none
      | some (mant, den, s3) =>
        let step3 : Option (Int × List Char) :=
          match s3 with
          | 'e' :: r =>
            match r with
            | '+' :: r2 => (parseDigits r2).map (fun (eds, s4) => ((digitsVal eds : Int), s4))
            | '-' :: r2 => (parseDigits r2).map (fun (eds, s4) => (-(digitsVal eds : Int), s4))
            | _ => (parseDigits r).map (fun (eds, s4) => ((digitsVal eds : Int), s4))
          | 'E' :: r =>
            match r with
            | '+' :: r2 => (parseDigits r2).map (fun (eds, s4) => ((digitsVal eds : Int), s4))
            | '-' :: r2 => (parseDigits r2).map (fun (eds, s4) => (-(digitsVal eds : Int), s4))
            | _ => (parseDigits r).map (fun (eds, s4) => ((digitsVal eds : Int), s4))
          | _ => some (0, s3)
        match step3 with
        | none => none
        | some (e, s4) =>
          let m : Int := if neg then -(mant : Int) else (mant : Int)
          if e ≥ 0 then some (.jnum (m * 10 ^ e.toNat) den, s4)
          else some (.jnum m (den + (-e).toNat), s4)

/-- Value of a hexadecimal digit, if any. -/
def hexVal (c : Char) : Option Nat :=
  if c.isDigit then some (c.toNat - 48)
  else if 'a' ≤ c && c ≤ 'f' then some (c.toNat - 87)
  else if 'A' ≤ c && c ≤ 'F' then some (c.toNat - 55)
  else none

/-- Parse the body of a JSON string (opening quote already consumed),
accumulating characters in reverse. Strict mode: raw control characters are
rejected, as `json.loads` does by default. -/
def parseStrAux (acc : List Char) : List Char → Option (String × List Char)
  | [] => none
  | c :: rest =>
    if c == '\"' then some (⟨acc.reverse⟩, rest)
    else if c == '\\' then
      match rest with
      | [] => none
      | e :: r2 =>
        if e == '\"' then parseStrAux ('\"' :: acc) r2
        else if e == '\\' then parseStrAux ('\\' :: acc) r2
        else if e == '/' then parseStrAux ('/' :: acc) r2
        else if e == 'b' then parseStrAux ('\x08' :: acc) r2
        else if e == 'f' then parseStrAux ('\x0c' :: acc) r2
        else if e == 'n' then parseStrAux ('\n' :: acc) r2
        else if e == 'r' then parseStrAux ('\r' :: acc) r2
        else if e == 't' then parseStrAux ('\t' :: acc) r2
        else if e == 'u' then
          match r2 with
          | h1 :: h2 :: h3 :: h4 :: r3 =>
            match hexVal h1, hexVal h2, hexVal h3, hexVal h4 with
            | some a, some b, some c2, some d =>
              parseStrAux (Char.ofNat (((a * 16 + b) * 16 + c2) * 16 + d) :: acc) r3
            | _, _, _, _ => none
          | _ => none
        else none
    else if c.toNat < 32 then none
    else parseStrAux (c :: acc) rest

mutual

/-- Parse one JSON value, returning it and the unconsumed input.
`fuel` only bounds nesting; `json_loads_chars` supplies enough of it. -/
def parseVal (fuel : Nat) (s : List Char) : Option (Json × List Char) :=
  match fuel with
  | 0 => none
  | f + 1 =>
    match skipWs s with
    | [] => none
    | c :: rest =>
      if c == '\x7b' then
        match skipWs rest with
        | '\x7d' :: r2 => some (.jobj [], r2)
        | r => match parseMembers f r with
          | some (ms, r2) => some (.jobj ms, r2)
          | none => none
      else if c == '[' then
        match skipWs rest with
        | ']' :: r2 => some (.jarr [], r2)
        | r => match parseElems f r with
          | some (es, r2) => some (.jarr es, r2)
          | none => none
      else if c == '\"' then
        match parseStrAux [] rest with
        | some (str, r2) => some (.jstr str, r2)
        | none => none
      else if c == 't' then
        if "rue".data.isPrefixOf rest then some (.jbool true, rest.drop 3) else none
      else if c == 'f' then
        if "alse".data.isPrefixOf rest then some (.jbool false, rest.drop 4) else none
      else if c == 'n' then
        if "ull".data.isPrefixOf rest then some (.jnull, rest.drop 3) else none
      else parseNumber (c :: rest)

/-- Parse the members of a nonempty JSON object, up to and including the
closing brace. -/
def parseMembers (fuel : Nat) (s : List Char) : Option (List (String × Json) × List Char) :=
  match fuel with
  | 0 => none
  | f + 1 =>
    match skipWs s with
    | '\"' :: rest =>
      match parseStrAux [] rest with
      | none => none
      | some (k, r1) =>
        match skipWs r1 with
        | ':' :: r2 =>
          match parseVal f r2 with
          | none => none
          | some (v, r3) =>
            match skipWs r3 with
            | ',' :: r4 =>
              match parseMembers f r4 with
              | some (ms, r5) => some ((k, v) :: ms, r5)
              | none => none
            | '\x7d' :: r4 => some ([(k, v)], r4)
            | _ => none
        | _ => none
    | _ => none

/-- Parse the elements of a nonempty JSON array, up to and including the
closing bracket. -/
def parseElems (fuel : Nat) (s : List Char) : Option (List Json × List Char) :=
  match fuel with
  | 0 => none
  | f + 1 =>
    match parseVal f s with
    | none => none
    | some (v, r1) =>
      match skipWs r1 with
      | ',' :: r2 =>
        match parseElems f r2 with
        | some (es, r3) => some (v :: es, r3)
        | none => none
      | ']' :: r2 => some ([v], r2)
      | _ => none

end

/-- Model of Python `json.loads` on a character list: one JSON value with
nothing but whitespace around it, otherwise a decode failure (`none`). -/
def json_loads_chars (s : List Char) : Option Json :=
  match parseVal (s.length + 1) s with
  | some (v, rest) => if skipWs rest = [] then some v else none
  | none => none

/-! ## Python string operations used by the engine -/

/-- Python `str.strip()` whitespace test (ASCII fragment). -/
def isSp (c : Char) : Bool := c.isWhitespace

/-- Model of Python `str.strip()` on a character list: drop whitespace from
the front, then from the back. -/
def pyStrip (l : List Char) : List Char :=
  List.rdropWhile isSp (l.dropWhile isSp)

/-- The backtick character (obtained from a string literal). -/
def bt : Char := "`".data.headD ' '

/-- The characters of the opening fence marker tagged json. -/
def fenceJson : List Char := "```json".data

/-- The characters of a bare fence marker. -/
def fence3 : List Char := "```".data

/-- The markdown-fence normalization of `_parse_response` (lines 117-126):
strip, drop a leading tagged opening marker, drop a leading bare marker,
drop a trailing marker, strip again. Each step mirrors one `if` of the
source (note the second and third `if` are not `elif`s). -/
def stripFences (l : List Char) : List Char :=
  let s1 := pyStrip l
  let s2 := if fenceJson.isPrefixOf s1 then s1.drop 7 else s1
  let s3 := if fence3.isPrefixOf s2 then s2.drop 3 else s2
  let s4 := if fence3.isSuffixOf s3 then s3.take (s3.length - 3) else s3
  pyStrip s4

/-- Python substring test `needle in hay` for strings. -/
def containsSub (needle : List Char) : List Char → Bool
  | [] => needle.isEmpty
  | c :: rest => needle.isPrefixOf (c :: rest) || containsSub needle rest

/-- Python `==` between a JSON value and a Python string: only a decoded
string can compare equal to a string. -/
def jsonEqStr (j : Json) (s : String) : Bool :=
  match j with
  | .jstr t => t == s
  | _ => false

/-- Python `str.lower()` (ASCII fragment, character by character). -/
def pyLower (s : String) : String := ⟨s.data.map Char.toLower⟩

/-- Python `dict.__getitem__`-style lookup on a decoded object: with
duplicate keys in the JSON text, `json.loads` keeps the last one. -/
def pyGet (k : String) (m : List (String × Json)) : Option Json :=
  m.reverse.lookup k

/-- Python `dict.get(k)`: an explicit JSON `null` and an absent key both
come back as Python `None`. -/
def pyGetOpt (k : String) (m : List (String × Json)) : Option Json :=
  match pyGet k m with
  | some .jnull => none
  | x => x

/-! ## The classification engine -/

/-- Failure kinds of `_parse_response`. The source raises `ValueError`s (and
lets `TypeError`/`AttributeError` from non-dict payloads be re-wrapped by its
catch-all); the engine maps every kind to an `error` string. -/
inductive ParseErr where
  | malformedPayload : ParseErr
  | missingLabel : ParseErr
  | unknownLabel : String → ParseErr
  | attributeError : ParseErr
  | typeError : ParseErr
deriving Repr, DecidableEq

/-- The dictionary `_parse_response` returns on success. -/
structure ParsedPayload where
  predicted_label : String
  confidence : Option Json
  rationale : Option Json
deriving Repr

/-- The error message `classify` stores (`str(e)` of the raised exception). -/
def errMsg : ParseErr → String
  | .malformedPayload => "Failed to parse JSON response: Expecting value"
  | .missingLabel => "Error parsing response: Response missing 'label' field"
  | .unknownLabel got => "Error parsing response: Invalid label '" ++ got ++ "'"
  | .attributeError => "Error parsing response: 'label' value has no attribute 'lower'"
  | .typeError => "Error parsing response: argument is not a dict"

/-- The post-decode logic of `_parse_response` (lines 128-158), applied to
the result of `json.loads`:
* decode failure → `JSONDecodeError`;
* `"label" not in result` → missing-label `ValueError` (on a decoded string
  or list, Python `in` is a substring/membership test; on a number, bool or
  null it raises `TypeError`);
* `result["label"]` not a member of `labels` → case-insensitive retry with
  canonical casing, else unknown-label `ValueError` (a non-string label value
  is never a member and its `.lower()` raises `AttributeError`);
* success → the `{predicted_label, confidence, rationale}` dictionary. -/
def parseFromJson (labels : List String) : Option Json → Except ParseErr ParsedPayload
  | none => .error .malformedPayload
  | some (.jobj m) =>
    match pyGet "label" m with
    | none => .error .missingLabel
    | some v =>
      match v with
      | .jstr lbl =>
        if labels.contains lbl then
          .ok ⟨lbl, pyGetOpt "confidence" m, pyGetOpt "rationale" m⟩
        else
          match labels.find? (fun l => pyLower l == pyLower lbl) with
          | some canon => .ok ⟨canon, pyGetOpt "confidence" m, pyGetOpt "rationale" m⟩
          | none => .error (.unknownLabel lbl)
      | _ => .error .attributeError
  | some (.jstr s) =>
    if containsSub "label".data s.data then .error .typeError else .error .missingLabel
  | some (.jarr xs) =>
    if xs.any (fun j => jsonEqStr j "label") then .error .typeError else .error .missingLabel
  | some _ => .error .typeError

/-- `TextClassifier._parse_response`: fence normalization, `json.loads`,
structure and label validation. -/
def parseResponse (labels : List String) (raw : String) : Except ParseErr ParsedPayload :=
  parseFromJson labels (json_loads_chars (stripFences raw.data))

/-- `TextClassifier._default_labels()`. -/
def default_labels : List String := ["Complaint", "Inquiry", "Feedback", "Other"]

/-- `TextClassifier._default_prompt_template()` (abridged to its two
placeholders and surrounding fixed text; the claims only depend on the
template through the rendered prompt being a function of labels and text). -/
def default_prompt_template : String :=
  "You are a text classification system. Classify the following text into exactly one of these categories: \x7blabels\x7d\n\nText to classify: \"\x7btext\x7d\"\n\nRespond with a JSON object."

/-- Python `str.format` restricted to the two fields `{labels}` and `{text}`:
one left-to-right scan, each placeholder replaced by its argument, replacement
text never rescanned. -/
def pyFormat (tmpl : List Char) (labelsStr text : String) : List Char :=
  match tmpl with
  | [] => []
  | c :: rest =>
    if "\x7blabels\x7d".data.isPrefixOf (c :: rest) then
      labelsStr.data ++ pyFormat ((c :: rest).drop 8) labelsStr text
    else if "\x7btext\x7d".data.isPrefixOf (c :: rest) then
      text.data ++ pyFormat ((c :: rest).drop 6) labelsStr text
    else c :: pyFormat rest labelsStr text
termination_by tmpl.length
decreasing_by
  all_goals simp [List.length_drop]
  all_goals omega

/-- `TextClassifier._build_prompt`. -/
def buildPrompt (tmpl : String) (labels : List String) (text : String) : String :=
  ⟨pyFormat tmpl.data (String.intercalate ", " labels) text⟩

/-- `ClassificationResult` (the dataclass). The source annotates
`confidence: Optional[float]` but stores whatever `json.loads` produced, so
the field carries an optional JSON value here. -/
structure ClassificationResult where
  text : String
  predicted_label : String
  confidence : Option Json := none
  rationale : Option Json := none
  error : Option String := none
deriving Repr

/-- `TextClassifier.classify`, instrumented with the number of remote
completion calls made (0 or 1). `remote` is the oracle for
`self.client.chat.completions.create(...)....content`: it raises
(`.error e`, where `e` is `str(exception)`) or returns the raw text. -/
def classifyCore (labels : List String) (tmpl : String)
    (remote : String → Except String String) (text : String) :
    ClassificationResult × Nat :=
  if pyStrip text.data = [] then
    (⟨text, "Other", none, none, some "Empty text provided"⟩, 0)
  else
    match remote (buildPrompt tmpl labels text) with
    | .error e => (⟨text, "Other", none, none, some e⟩, 1)
    | .ok raw =>
      match parseResponse labels raw with
      | .error pe => (⟨text, "Other", none, none, some (errMsg pe)⟩, 1)
      | .ok p => (⟨text, p.predicted_label, p.confidence, p.rationale, none⟩, 1)

/-- `TextClassifier.classify`: the returned `ClassificationResult`. -/
def classify (labels : List String) (tmpl : String)
    (remote : String → Except String String) (text : String) :
    ClassificationResult :=
  (classifyCore labels tmpl remote text).1

/-- `TextClassifier.classify_batch`: the sequential append loop, i.e. a map. -/
def classify_batch (labels : List String) (tmpl : String)
    (remote : String → Except String String) (texts : List String) :
    List ClassificationResult :=
  texts.map (classify labels tmpl remote)

/-! ## Construction (`TextClassifier.__init__`) -/

/-- The parsed contents of an existing configuration file: the optional
`labels` and `prompt_template` keys of its JSON object. -/
structure ConfigFile where
  labelsKey : Option (List String)
  templateKey : Option String

/-- The constructed engine state (`self.api_key`, `self.model`,
`self.labels`, `self.prompt_template`). -/
structure Engine where
  api_key : String
  model : String
  labels : List String
  prompt_template : String
deriving Repr

/-- Python `a or b` on optional strings (`None` and `""` are falsy). -/
def pyOrStr (a b : Option String) : Option String :=
  match a with
  | some s => if s == "" then b else some s
  | none => b

/-- Python `labels or self._default_labels()` (`None` and `[]` are falsy). -/
def pyOrLabels (a : Option (List String)) (d : List String) : List String :=
  match a with
  | some l => if l.isEmpty then d else l
  | none => d

/-- The message of the `ValueError` raised on a missing credential. -/
def keyErrorMsg : String :=
  "OpenAI API key not found. Set OPENAI_API_KEY environment variable or pass api_key parameter."

/-- The message of the `ValueError` raised on label validation failure. -/
def labelsErrorMsg : String :=
  "At least 2 labels are required for classification"

/-- `TextClassifier.__init__`. `apiKey` is the parameter, `envKey` the value
of `os.getenv("OPENAI_API_KEY")`, `cfg` the parsed config file when one was
given and exists. A raised `ValueError` is an `.error` with its message. -/
def TextClassifier_init (apiKey envKey : Option String) (model : String)
    (labelsArg : Option (List String)) (cfg : Option ConfigFile) :
    Except String Engine :=
  match pyOrStr apiKey envKey with
  | none => .error keyErrorMsg
  | some k =>
    if k == "" then
      .error keyErrorMsg
    else
      let lbls := match cfg with
        | some c => c.labelsKey.getD (pyOrLabels labelsArg default_labels)
        | none => pyOrLabels labelsArg default_labels
      let tmpl := match cfg with
        | some c => c.templateKey.getD default_prompt_template
        | none => default_prompt_template
      if lbls.length < 2 then
        .error labelsErrorMsg
      else
        .ok ⟨k, model, lbls, tmpl⟩

/-! ## Helper lemmas -/

/-- A successful parse only ever returns a member of the configured labels. -/
theorem parseFromJson_ok_label_mem (labels : List String) (oj : Option Json)
    (p : ParsedPayload) (h : parseFromJson labels oj = .ok p) :
    p.predicted_label ∈ labels := by
  cases oj with
  | none => simp [parseFromJson] at h
  | some j =>
    cases j with
    | jnull => simp [parseFromJson] at h
    | jbool b => simp [parseFromJson] at h
    | jnum a b => simp [parseFromJson] at h
    | jstr s =>
      by_cases hc : containsSub "label".data s.data <;> simp [parseFromJson, hc] at h
    | jarr xs =>
      by_cases hc : xs.any (fun j => jsonEqStr j "label") <;>
        simp [parseFromJson, hc] at h
    | jobj m =>
      simp only [parseFromJson] at h
      cases hv : pyGet "label" m with
      | none => rw [hv] at h; simp at h
      | some v =>
        rw [hv] at h
        cases v with
        | jstr lbl =>
          by_cases hmem : labels.contains lbl
          · simp only [hmem, if_true] at h
            injection h with h'
            subst h'
            exact List.elem_iff.mp hmem
          · simp only [hmem, if_false, Bool.false_eq_true] at h
            cases hf : labels.find? (fun l => pyLower l == pyLower lbl) with
            | none => rw [hf] at h; simp at h
            | some canon =>
              rw [hf] at h
              injection h with h'
              subst h'
              exact List.mem_of_find?_eq_some hf
        | jnull => simp at h
        | jbool b => simp at h
        | jnum a b => simp at h
        | jarr xs => simp at h
        | jobj m2 => simp at h

/-- The same membership fact, phrased for `_parse_response`. -/
theorem parseResponse_ok_label_mem (labels : List String) (raw : String)
    (p : ParsedPayload) (h : parseResponse labels raw = .ok p) :
    p.predicted_label ∈ labels :=
  parseFromJson_ok_label_mem labels _ p h

/-! ## Claim C1 -/

/-- C1: for every input text, `classify` returns a `ClassificationResult` and
never raises: the empty-input short circuit, a raised remote/transport error
and a parse failure each yield a result whose `error` carries the message and
whose `predicted_label` is the fallback `"Other"`; in every case the result
either has no error or has an error message together with the fallback label. -/
theorem classify_failure_isolation (labels : List String) (tmpl : String)
    (remote : String → Except String String) (text : String) :
    (pyStrip text.data = [] →
      classify labels tmpl remote text =
        ⟨text, "Other", none, none, some "Empty text provided"⟩) ∧
    (∀ e, pyStrip text.data ≠ [] → remote (buildPrompt tmpl labels text) = .error e →
      classify labels tmpl remote text = ⟨text, "Other", none, none, some e⟩) ∧
    (∀ raw pe, pyStrip text.data ≠ [] → remote (buildPrompt tmpl labels text) = .ok raw →
      parseResponse labels raw = .error pe →
      classify labels tmpl remote text = ⟨text, "Other", none, none, some (errMsg pe)⟩) ∧
    ((classify labels tmpl remote text).error = none ∨
      ∃ msg, (classify labels tmpl remote text).error = some msg ∧
        (classify labels tmpl remote text).predicted_label = "Other") := by
  refine ⟨?_, ?_, ?_, ?_⟩
  · intro h
    simp [classify, classifyCore, h]
  · intro e hne he
    simp [classify, classifyCore, hne, he]
  · intro raw pe hne hok hpe
    simp [classify, classifyCore, hne, hok, hpe]
  · by_cases hemp : pyStrip text.data = []
    · exact Or.inr ⟨"Empty text provided", by simp [classify, classifyCore, hemp]⟩
    · cases hr : remote (buildPrompt tmpl labels text) with
      | error e =>
        exact Or.inr ⟨e, by simp [classify, classifyCore, hemp, hr]⟩
      | ok raw =>
        cases hp : parseResponse labels raw with
        | error pe =>
          exact Or.inr ⟨errMsg pe, by simp [classify, classifyCore, hemp, hr, hp]⟩
        | ok p =>
          exact Or.inl (by simp [classify, classifyCore, hemp, hr, hp])

/-- C1 witness: concrete failing remote call. -/
theorem classify_failure_isolation_witness :
    classify default_labels default_prompt_template
      (fun _ => Except.error "Connection error") "hello" =
      ⟨"hello", "Other", none, none, some "Connection error"⟩ :=
  (classify_failure_isolation default_labels default_prompt_template
    (fun _ => Except.error "Connection error") "hello").2.1
    "Connection error" (by decide) rfl

/-! ## Claim C2 -/

/-- C2: every result of `classify` satisfies exactly one of: `error` set and
`predicted_label` the fallback `"Other"`, or `error` absent and
`predicted_label` a member of the configured label set. -/
theorem classify_result_dichotomy (labels : List String) (tmpl : String)
    (remote : String → Except String String) (text : String) :
    Xor'
      ((classify labels tmpl remote text).error.isSome ∧
        (classify labels tmpl remote text).predicted_label = "Other")
      ((classify labels tmpl remote text).error = none ∧
        (classify labels tmpl remote text).predicted_label ∈ labels) := by
  by_cases hemp : pyStrip text.data = []
  · left
    refine ⟨⟨by simp [classify, classifyCore, hemp], by simp [classify, classifyCore, hemp]⟩, ?_⟩
    rintro ⟨h1, -⟩
    simp [classify, classifyCore, hemp] at h1
  · cases hr : remote (buildPrompt tmpl labels text) with
    | error e =>
      left
      refine ⟨⟨by simp [classify, classifyCore, hemp, hr], by simp [classify, classifyCore, hemp, hr]⟩, ?_⟩
      rintro ⟨h1, -⟩
      simp [classify, classifyCore, hemp, hr] at h1
    | ok raw =>
      cases hp : parseResponse labels raw with
      | error pe =>
        left
        refine ⟨⟨by simp [classify, classifyCore, hemp, hr, hp], by simp [classify, classifyCore, hemp, hr, hp]⟩, ?_⟩
        rintro ⟨h1, -⟩
        simp [classify, classifyCore, hemp, hr, hp] at h1
      | ok p =>
        right
        have hmem := parseResponse_ok_label_mem labels raw p hp
        refine ⟨⟨by simp [classify, classifyCore, hemp, hr, hp], ?_⟩, ?_⟩
        · simpa [classify, classifyCore, hemp, hr, hp] using hmem
        · rintro ⟨h1, -⟩
          simp [classify, classifyCore, hemp, hr, hp] at h1

/-! ## Claim C3 -/

/-- C3: `classify_batch` preserves length, its i-th element is `classify` of
the i-th input, and the i-th result depends only on the i-th input (per-item
isolation). -/
theorem classify_batch_pointwise (labels : List String) (tmpl : String)
    (remote : String → Except String String) (texts : List String) :
    (classify_batch labels tmpl remote texts).length = texts.length ∧
    (∀ (i : Nat) (h : i < texts.length)
      (h2 : i < (classify_batch labels tmpl remote texts).length),
      (classify_batch labels tmpl remote texts).get ⟨i, h2⟩ =
        classify labels tmpl remote (texts.get ⟨i, h⟩)) ∧
    (∀ (texts' : List String) (i : Nat) (h : i < texts.length)
      (h' : i < texts'.length)
      (h2 : i < (classify_batch labels tmpl remote texts).length)
      (h2' : i < (classify_batch labels tmpl remote texts').length),
      texts.get ⟨i, h⟩ = texts'.get ⟨i, h'⟩ →
      (classify_batch labels tmpl remote texts).get ⟨i, h2⟩ =
        (classify_batch labels tmpl remote texts').get ⟨i, h2'⟩) := by
  refine ⟨by simp [classify_batch], ?_, ?_⟩
  · intro i h h2
    simp [classify_batch]
  · intro texts' i h h' h2 h2' heq
    simp only [List.get_eq_getElem] at heq
    simp [classify_batch, heq]

/-- C3 witness: a two-element batch with a failing remote call; the first
element is exactly `classify` of the first input. -/
theorem classify_batch_pointwise_witness :
    (classify_batch default_labels default_prompt_template
      (fun _ => Except.error "boom") ["hello", ""]).length = 2 ∧
    (classify_batch default_labels default_prompt_template
      (fun _ => Except.error "boom") ["hello", ""]).get ⟨0, by decide⟩ =
      classify default_labels default_prompt_template
        (fun _ => Except.error "boom") "hello" := by
  have h := classify_batch_pointwise default_labels default_prompt_template
    (fun _ => Except.error "boom") ["hello", ""]
  exact ⟨h.1, h.2.1 0 (by decide) (by decide)⟩

/-! ## Claim C4 -/

/-- C4: on empty or whitespace-only text, `classify` returns immediately with
the fallback label and error `"Empty text provided"`, and the remote client
is never invoked (call count 0). -/
theorem classify_empty_short_circuit (labels : List String) (tmpl : String)
    (remote : String → Except String String) (text : String)
    (h : pyStrip text.data = []) :
    classifyCore labels tmpl remote text =
      (⟨text, "Other", none, none, some "Empty text provided"⟩, 0) := by
  simp [classifyCore, h]

/-- C4 witness: whitespace-only input. -/
theorem classify_empty_short_circuit_witness :
    classifyCore default_labels default_prompt_template
      (fun _ => Except.ok "\x7b\"label\": \"Other\"\x7d") "  \t\n" =
      (⟨"  \t\n", "Other", none, none, some "Empty text provided"⟩, 0) :=
  classify_empty_short_circuit default_labels default_prompt_template
    (fun _ => Except.ok "\x7b\"label\": \"Other\"\x7d") "  \t\n" (by decide)

/-! ## Claim C10 -/

/-- C10: on every failure path the fallback label is the literal `"Other"`,
independent of the configured labels; hence for an engine whose label set
does not contain `"Other"`, every error-carrying result has a label outside
the configured label set. -/
theorem classify_fallback_hardcoded (labels : List String) (tmpl : String)
    (remote : String → Except String String) (text : String)
    (h : (classify labels tmpl remote text).error.isSome) :
    (classify labels tmpl remote text).predicted_label = "Other" ∧
    ("Other" ∉ labels → (classify labels tmpl remote text).predicted_label ∉ labels) := by
  by_cases hemp : pyStrip text.data = []
  · refine ⟨by simp [classify, classifyCore, hemp], fun hno => ?_⟩
    simpa [classify, classifyCore, hemp] using hno
  · cases hr : remote (buildPrompt tmpl labels text) with
    | error e =>
      refine ⟨by simp [classify, classifyCore, hemp, hr], fun hno => ?_⟩
      simpa [classify, classifyCore, hemp, hr] using hno
    | ok raw =>
      cases hp : parseResponse labels raw with
      | error pe =>
        refine ⟨by simp [classify, classifyCore, hemp, hr, hp], fun hno => ?_⟩
        simpa [classify, classifyCore, hemp, hr, hp] using hno
      | ok p =>
        exfalso
        simp [classify, classifyCore, hemp, hr, hp] at h

/-- C10 witness: a label set without `"Other"`; the error result's label is
`"Other"`, which is not a member. -/
theorem classify_fallback_hardcoded_witness :
    (classify ["Spam", "Ham"] default_prompt_template
      (fun _ => Except.error "boom") "hello").predicted_label = "Other" ∧
    (classify ["Spam", "Ham"] default_prompt_template
      (fun _ => Except.error "boom") "hello").predicted_label ∉ (["Spam", "Ham"] : List String) := by
  have h := classify_fallback_hardcoded ["Spam", "Ham"] default_prompt_template
    (fun _ => Except.error "boom") "hello" (by decide)
  exact ⟨h.1, h.2 (by decide)⟩

/-! ## Claim C5 -/

/-- C5: when the decoded response object carries a string `label`, an exact
match against the label set is returned as is; otherwise a case-insensitive
match substitutes the canonical casing from the label set; if neither holds
parsing fails with the unknown-label error. -/
theorem parse_label_validation (labels : List String) (raw : String)
    (m : List (String × Json)) (lbl : String)
    (hdec : json_loads_chars (stripFences raw.data) = some (.jobj m))
    (hlab : pyGet "label" m = some (.jstr lbl)) :
    (lbl ∈ labels →
      parseResponse labels raw =
        .ok ⟨lbl, pyGetOpt "confidence" m, pyGetOpt "rationale" m⟩) ∧
    (lbl ∉ labels →
      (∀ canon, labels.find? (fun l => pyLower l == pyLower lbl) = some canon →
        parseResponse labels raw =
          .ok ⟨canon, pyGetOpt "confidence" m, pyGetOpt "rationale" m⟩) ∧
      (labels.find? (fun l => pyLower l == pyLower lbl) = none →
        parseResponse labels raw = .error (.unknownLabel lbl))) := by
  have hbase : parseResponse labels raw = parseFromJson labels (some (.jobj m)) := by
    rw [parseResponse, hdec]
  constructor
  · intro hmem
    have hc : labels.contains lbl = true := List.elem_iff.mpr hmem
    rw [hbase]
    simp only [parseFromJson, hlab, hc, if_true]
  · intro hnmem
    have hc : labels.contains lbl = false :=
      Bool.eq_false_iff.mpr (fun hx => hnmem (List.elem_iff.mp hx))
    constructor
    · intro canon hf
      rw [hbase]
      simp only [parseFromJson, hlab, hc, Bool.false_eq_true, if_false, hf]
    · intro hf
      rw [hbase]
      simp only [parseFromJson, hlab, hc, Bool.false_eq_true, if_false, hf]

/-- C5 witness: label set `["Complaint","Inquiry"]`, raw response
`{"label":"complaint","confidence":0.9}`; the parsed label is the
canonically-cased `"Complaint"` and the confidence is passed through. -/
theorem parse_label_validation_witness :
    parseResponse ["Complaint", "Inquiry"]
      "\x7b\"label\":\"complaint\",\"confidence\":0.9\x7d" =
      .ok ⟨"Complaint", some (.jnum 9 1), none⟩ := by
  have h := parse_label_validation ["Complaint", "Inquiry"]
    "\x7b\"label\":\"complaint\",\"confidence\":0.9\x7d"
    [("label", .jstr "complaint"), ("confidence", .jnum 9 1)] "complaint"
    rfl rfl
  exact (h.2 (by decide)).1 "Complaint" rfl

/-! ## Claim C9 -/

/-- C9: on every successful parse, `confidence` and `rationale` are passed
through from the decoded object exactly as received (no clamping to [0,1],
no rejection of out-of-range values), and an absent field stays absent. -/
theorem parse_confidence_rationale_passthrough (labels : List String)
    (raw : String) (p : ParsedPayload) (h : parseResponse labels raw = .ok p) :
    ∃ m, json_loads_chars (stripFences raw.data) = some (.jobj m) ∧
      p.confidence = pyGetOpt "confidence" m ∧
      p.rationale = pyGetOpt "rationale" m := by
  unfold parseResponse at h
  cases hdec : json_loads_chars (stripFences raw.data) with
  | none => rw [hdec] at h; simp [parseFromJson] at h
  | some j =>
    rw [hdec] at h
    cases j with
    | jnull => simp [parseFromJson] at h
    | jbool b => simp [parseFromJson] at h
    | jnum a b => simp [parseFromJson] at h
    | jstr s =>
      by_cases hc : containsSub "label".data s.data <;> simp [parseFromJson, hc] at h
    | jarr xs =>
      by_cases hc : xs.any (fun j => jsonEqStr j "label") <;>
        simp [parseFromJson, hc] at h
    | jobj m =>
      refine ⟨m, rfl, ?_⟩
      simp only [parseFromJson] at h
      cases hv : pyGet "label" m with
      | none => rw [hv] at h; simp at h
      | some v =>
        rw [hv] at h
        cases v with
        | jstr lbl =>
          by_cases hmem : labels.contains lbl
          · simp only [hmem, if_true] at h
            injection h with h'
            subst h'
            exact ⟨rfl, rfl⟩
          · simp only [hmem, if_false, Bool.false_eq_true] at h
            cases hf : labels.find? (fun l => pyLower l == pyLower lbl) with
            | none => rw [hf] at h; simp at h
            | some canon =>
              rw [hf] at h
              injection h with h'
              subst h'
              exact ⟨rfl, rfl⟩
        | jnull => simp at h
        | jbool b => simp at h
        | jnum a b => simp at h
        | jarr xs => simp at h
        | jobj m2 => simp at h

/-- C9 witness: an out-of-range confidence of 7.5 is carried through
unmodified, and the absent rationale stays absent. -/
theorem parse_confidence_passthrough_witness :
    ∃ m, json_loads_chars
        (stripFences "\x7b\"label\": \"Other\", \"confidence\": 7.5\x7d".data) =
        some (.jobj m) ∧
      (some (Json.jnum 75 1) : Option Json) = pyGetOpt "confidence" m ∧
      (none : Option Json) = pyGetOpt "rationale" m := by
  have h := parse_confidence_rationale_passthrough default_labels
    "\x7b\"label\": \"Other\", \"confidence\": 7.5\x7d"
    ⟨"Other", some (.jnum 75 1), none⟩ rfl
  exact h

/-! ## Claim C7 (corrected) -/

/-- C7 counterexample: supplying an empty label list — fewer than two labels —
does not fail construction: the empty list is falsy in Python, so the default
labels silently take its place and construction succeeds. -/
theorem init_fewer_than_two_counterexample :
    TextClassifier_init (some "sk-key") none "gpt-3.5-turbo" (some []) none =
      .ok ⟨"sk-key", "gpt-3.5-turbo", default_labels, default_prompt_template⟩ := rfl

/-- C7 (amended): construction fails when no credential can be established,
fails when a single-element label list is supplied, and succeeds when a
credential is available and two or more distinct labels are supplied; an
empty supplied list is replaced by the defaults instead of failing. -/
theorem init_validation (apiKey envKey : Option String) (model : String)
    (labelsArg : Option (List String)) (cfg : Option ConfigFile) :
    (pyOrStr apiKey envKey = none ∨ pyOrStr apiKey envKey = some "" →
      ∃ msg, TextClassifier_init apiKey envKey model labelsArg cfg = .error msg) ∧
    (∀ x, labelsArg = some [x] → cfg = none →
      ∃ msg, TextClassifier_init apiKey envKey model labelsArg cfg = .error msg) ∧
    (∀ k lbls, pyOrStr apiKey envKey = some k → k ≠ "" →
      labelsArg = some lbls → 2 ≤ lbls.length → lbls.Nodup → cfg = none →
      TextClassifier_init apiKey envKey model labelsArg cfg =
        .ok ⟨k, model, lbls, default_prompt_template⟩) := by
  refine ⟨?_, ?_, ?_⟩
  · rintro (hk | hk) <;> exact ⟨keyErrorMsg, by simp [TextClassifier_init, hk]⟩
  · intro x hx hcfg
    subst hx; subst hcfg
    cases hk : pyOrStr apiKey envKey with
    | none => exact ⟨keyErrorMsg, by simp [TextClassifier_init, hk]⟩
    | some k =>
      by_cases hke : k = ""
      · subst hke; exact ⟨keyErrorMsg, by simp [TextClassifier_init, hk]⟩
      · exact ⟨labelsErrorMsg, by simp [TextClassifier_init, hk, hke, pyOrLabels]⟩
  · intro k lbls hk hke hl hlen hnd hcfg
    subst hl; subst hcfg
    have hne : lbls.isEmpty = false := by
      cases lbls with
      | nil => simp at hlen
      | cons a t => rfl
    have hlt : ¬ lbls.length < 2 := by omega
    simp [TextClassifier_init, hk, hke, pyOrLabels, hne, hlt]

/-- C7 witness: with a credential and two distinct labels, construction
succeeds; with a single label it fails. -/
theorem init_validation_witness :
    (∃ msg, TextClassifier_init (some "sk-key") none "gpt-3.5-turbo"
      (some ["OnlyOne"]) none = .error msg) ∧
    TextClassifier_init (some "sk-key") none "gpt-3.5-turbo"
      (some ["Spam", "Ham"]) none =
      .ok ⟨"sk-key", "gpt-3.5-turbo", ["Spam", "Ham"], default_prompt_template⟩ := by
  refine ⟨(init_validation (some "sk-key") none "gpt-3.5-turbo"
    (some ["OnlyOne"]) none).2.1 "OnlyOne" rfl rfl, ?_⟩
  exact (init_validation (some "sk-key") none "gpt-3.5-turbo"
    (some ["Spam", "Ham"]) none).2.2 "sk-key" ["Spam", "Ham"] rfl
    (by decide) rfl (by decide) (by decide) rfl

/-! ## Claim C8 (corrected) -/

/-- C8 counterexample: construction with a duplicated label list succeeds and
stores the duplicates — the engine does not deduplicate. -/
theorem init_duplicate_labels_counterexample :
    TextClassifier_init (some "sk-key") none "gpt-3.5-turbo"
      (some ["Complaint", "Complaint"]) none =
      .ok ⟨"sk-key", "gpt-3.5-turbo", ["Complaint", "Complaint"],
        default_prompt_template⟩ ∧
    ¬ (["Complaint", "Complaint"] : List String).Nodup :=
  ⟨rfl, by decide⟩

/-- C8 (amended): construction stores the resolved label sequence verbatim
and never deduplicates: the stored labels equal the supplied list (or the
defaults when none or an empty list is supplied), the default label set is
pairwise distinct, and the stored labels are pairwise distinct whenever the
supplied ones are. -/
theorem init_labels_stored_verbatim (apiKey envKey : Option String)
    (model : String) (labelsArg : Option (List String)) (eng : Engine)
    (h : TextClassifier_init apiKey envKey model labelsArg none = .ok eng) :
    eng.labels = pyOrLabels labelsArg default_labels ∧
    default_labels.Nodup ∧
    (∀ l, labelsArg = some l → ¬ l.isEmpty → l.Nodup → eng.labels.Nodup) := by
  have hlab : eng.labels = pyOrLabels labelsArg default_labels := by
    unfold TextClassifier_init at h
    cases hk : pyOrStr apiKey envKey with
    | none => rw [hk] at h; simp at h
    | some k =>
      rw [hk] at h
      by_cases hke : k = ""
      · subst hke; simp at h
      · have hkb : (k == "") = false := beq_eq_false_iff_ne.mpr hke
        simp only [hkb, Bool.false_eq_true, if_false] at h
        split at h
        · simp at h
        · injection h with h'
          subst h'
          rfl
  refine ⟨hlab, by decide, fun l hl hne hnd => ?_⟩
  subst hl
  rw [hlab]
  simpa [pyOrLabels, Bool.eq_false_iff.mpr hne] using hnd

/-- C8 (amended) witness: a distinct supplied list is stored verbatim and
stays distinct. -/
theorem init_labels_stored_verbatim_witness :
    (⟨"sk-key", "gpt-3.5-turbo", ["Spam", "Ham"], default_prompt_template⟩ :
      Engine).labels = pyOrLabels (some ["Spam", "Ham"]) default_labels ∧
    default_labels.Nodup ∧
    (⟨"sk-key", "gpt-3.5-turbo", ["Spam", "Ham"], default_prompt_template⟩ :
      Engine).labels.Nodup := by
  have h := init_labels_stored_verbatim (some "sk-key") none "gpt-3.5-turbo"
    (some ["Spam", "Ham"])
    ⟨"sk-key", "gpt-3.5-turbo", ["Spam", "Ham"], default_prompt_template⟩ rfl
  exact ⟨h.1, h.2.1, h.2.2 ["Spam", "Ham"] rfl (by decide) (by decide)⟩

/-! ## Claim C6 (corrected): fence-marker invariance of the parser -/

/-- Explicit character form of the tagged fence marker. -/
theorem fenceJson_eq : fenceJson = bt :: bt :: bt :: 'j' :: 's' :: 'o' :: 'n' :: [] := rfl

/-- Explicit character form of the bare fence marker. -/
theorem fence3_eq : fence3 = bt :: bt :: bt :: [] := rfl

/-- A list whose prefix relation target keeps dropping nothing keeps dropping
nothing on the prefix as well. -/
theorem dropWhile_eq_self_of_prefix {p : Char → Bool} {x y : List Char}
    (hp : x <+: y) (hy : y.dropWhile p = y) : x.dropWhile p = x := by
  cases x with
  | nil => rfl
  | cons a t =>
    obtain ⟨r, rfl⟩ := hp
    rw [List.cons_append] at hy
    rw [List.dropWhile_cons] at hy ⊢
    by_cases hpa : p a
    · exfalso
      simp only [hpa, if_true] at hy
      have hlen := congrArg List.length hy
      have hle : (List.dropWhile p (t ++ r)).length ≤ (t ++ r).length :=
        (List.dropWhile_suffix p).sublist.length_le
      simp at hlen
      simp [List.length_append] at hle
      omega
    · simp [hpa]

/-- `pyStrip` output starts with a non-whitespace character (or is empty). -/
theorem pyStrip_dropWhile_self (l : List Char) :
    (pyStrip l).dropWhile isSp = pyStrip l :=
  dropWhile_eq_self_of_prefix (List.rdropWhile_prefix _ _)
    (List.dropWhile_idempotent _ _)

/-- Stripping is idempotent. -/
theorem pyStrip_idem (l : List Char) : pyStrip (pyStrip l) = pyStrip l := by
  conv_lhs => rw [pyStrip]
  rw [pyStrip_dropWhile_self]
  exact List.rdropWhile_idempotent _ _

/-- Stripping fixes a list with non-whitespace first and last characters. -/
theorem pyStrip_eq_self_of_ends (a b : Char) (mid : List Char)
    (ha : isSp a = false) (hb : isSp b = false) :
    pyStrip (a :: (mid ++ [b])) = a :: (mid ++ [b]) := by
  rw [pyStrip, List.dropWhile_cons]
  simp only [ha, Bool.false_eq_true, if_false]
  rw [show a :: (mid ++ [b]) = (a :: mid) ++ [b] from rfl]
  exact List.rdropWhile_concat_neg _ _ _ (by simp [hb])

/-- Stripping ignores a single newline of padding on each side. -/
theorem pyStrip_pad_nl (l : List Char) :
    pyStrip ('\n' :: (l ++ ['\n'])) = pyStrip l := by
  rw [pyStrip, pyStrip, List.dropWhile_cons]
  simp only [show isSp '\n' = true from rfl, if_true]
  rw [List.dropWhile_append]
  by_cases hE : (l.dropWhile isSp).isEmpty
  · simp only [hE, if_true]
    have h2 : l.dropWhile isSp = [] := by simpa [List.isEmpty_iff] using hE
    rw [show (List.dropWhile isSp ['\n'] : List Char) = [] from rfl, h2]
  · simp only [hE, Bool.false_eq_true, if_false]
    exact List.rdropWhile_concat_pos _ _ _ (by simp [isSp])

/-- When the stripped body carries no fence marker of its own, the fence
cascade of `_parse_response` is exactly `str.strip`. -/
theorem stripFences_unfenced (l : List Char)
    (h1 : ¬ (fence3 <+: pyStrip l)) (h2 : ¬ (fence3 <:+ pyStrip l)) :
    stripFences l = pyStrip l := by
  have hjson : fenceJson.isPrefixOf (pyStrip l) = false := by
    apply Bool.eq_false_iff.mpr
    intro hx
    exact h1 ((by decide : fence3 <+: fenceJson).trans (List.isPrefixOf_iff_prefix.mp hx))
  have h3 : fence3.isPrefixOf (pyStrip l) = false :=
    Bool.eq_false_iff.mpr (fun hx => h1 (List.isPrefixOf_iff_prefix.mp hx))
  have h4 : fence3.isSuffixOf (pyStrip l) = false :=
    Bool.eq_false_iff.mpr (fun hx => h2 (List.isSuffixOf_iff_suffix.mp hx))
  simp only [stripFences, hjson, h3, h4, Bool.false_eq_true, if_false]
  exact pyStrip_idem l

/-- The fence cascade on a body wrapped in a tagged fenced block reduces to
stripping the body. -/
theorem stripFences_tagged (s : String) :
    stripFences ("```json\n" ++ s ++ "\n```").data = pyStrip s.data := by
  have hdata : ("```json\n" ++ s ++ "\n```").data
      = fenceJson ++ ('\n' :: (s.data ++ ('\n' :: fence3))) := rfl
  rw [hdata]
  have h1 : pyStrip (fenceJson ++ ('\n' :: (s.data ++ ('\n' :: fence3))))
      = fenceJson ++ ('\n' :: (s.data ++ ('\n' :: fence3))) := by
    have hshape : fenceJson ++ ('\n' :: (s.data ++ ('\n' :: fence3)))
        = bt :: (([bt, bt, 'j', 's', 'o', 'n', '\n'] ++ (s.data ++ ['\n', bt, bt])) ++ [bt]) := by
      simp [fenceJson_eq, fence3_eq]
    rw [hshape]
    exact pyStrip_eq_self_of_ends bt bt _ rfl rfl
  have h2 : fenceJson.isPrefixOf (fenceJson ++ ('\n' :: (s.data ++ ('\n' :: fence3)))) = true := by
    simp [List.isPrefixOf_iff_prefix]
  have h3 : (fenceJson ++ ('\n' :: (s.data ++ ('\n' :: fence3)))).drop 7
      = '\n' :: (s.data ++ ('\n' :: fence3)) :=
    List.drop_left' (by rfl)
  have h4 : fence3.isPrefixOf ('\n' :: (s.data ++ ('\n' :: fence3))) = false := rfl
  have h5 : fence3.isSuffixOf ('\n' :: (s.data ++ ('\n' :: fence3))) = true := by
    simp only [List.isSuffixOf_iff_suffix]
    rw [show ('\n' :: (s.data ++ ('\n' :: fence3))) = (('\n' :: s.data) ++ ['\n']) ++ fence3 by simp]
    exact List.suffix_append _ _
  have h6 : ('\n' :: (s.data ++ ('\n' :: fence3))).take
      (('\n' :: (s.data ++ ('\n' :: fence3))).length - 3)
      = '\n' :: (s.data ++ ['\n']) := by
    rw [show ('\n' :: (s.data ++ ('\n' :: fence3))) = ('\n' :: (s.data ++ ['\n'])) ++ fence3 by simp]
    apply List.take_left'
    simp [fence3_eq]
  simp only [stripFences, h1, h2, if_true, h3, h4, Bool.false_eq_true, if_false, h5, h6]
  exact pyStrip_pad_nl s.data

/-- The fence cascade on a body wrapped in an untagged fenced block reduces
to stripping the body. -/
theorem stripFences_plain (s : String) :
    stripFences ("```\n" ++ s ++ "\n```").data = pyStrip s.data := by
  have hdata : ("```\n" ++ s ++ "\n```").data
      = fence3 ++ ('\n' :: (s.data ++ ('\n' :: fence3))) := rfl
  rw [hdata]
  have h1 : pyStrip (fence3 ++ ('\n' :: (s.data ++ ('\n' :: fence3))))
      = fence3 ++ ('\n' :: (s.data ++ ('\n' :: fence3))) := by
    have hshape : fence3 ++ ('\n' :: (s.data ++ ('\n' :: fence3)))
        = bt :: (([bt, bt, '\n'] ++ (s.data ++ ['\n', bt, bt])) ++ [bt]) := by
      simp [fence3_eq]
    rw [hshape]
    exact pyStrip_eq_self_of_ends bt bt _ rfl rfl
  have h2 : fenceJson.isPrefixOf (fence3 ++ ('\n' :: (s.data ++ ('\n' :: fence3)))) = false := rfl
  have h3 : fence3.isPrefixOf (fence3 ++ ('\n' :: (s.data ++ ('\n' :: fence3)))) = true := by
    simp [List.isPrefixOf_iff_prefix]
  have h4 : (fence3 ++ ('\n' :: (s.data ++ ('\n' :: fence3)))).drop 3
      = '\n' :: (s.data ++ ('\n' :: fence3)) :=
    List.drop_left' (by rfl)
  have h5 : fence3.isSuffixOf ('\n' :: (s.data ++ ('\n' :: fence3))) = true := by
    simp only [List.isSuffixOf_iff_suffix]
    rw [show ('\n' :: (s.data ++ ('\n' :: fence3))) = (('\n' :: s.data) ++ ['\n']) ++ fence3 by simp]
    exact List.suffix_append _ _
  have h6 : ('\n' :: (s.data ++ ('\n' :: fence3))).take
      (('\n' :: (s.data ++ ('\n' :: fence3))).length - 3)
      = '\n' :: (s.data ++ ['\n']) := by
    rw [show ('\n' :: (s.data ++ ('\n' :: fence3))) = ('\n' :: (s.data ++ ['\n'])) ++ fence3 by simp]
    apply List.take_left'
    simp [fence3_eq]
  simp only [stripFences, h1, h2, Bool.false_eq_true, if_false, h3, if_true, h4, h5, h6]
  exact pyStrip_pad_nl s.data

/-- C6 counterexample: the body `{"label": "Other"}```\ ` parses successfully
on its own (the cascade eats its stray trailing marker), but wrapped in a
fenced block it fails to decode — the wrapper's closing marker is removed
instead, leaving the stray one in place. So parsing is not invariant under
adding the fence wrapper. -/
theorem parse_fence_invariance_counterexample :
    parseResponse default_labels "\x7b\"label\": \"Other\"\x7d```" =
      .ok ⟨"Other", none, none⟩ ∧
    parseResponse default_labels
      ("```json\n" ++ "\x7b\"label\": \"Other\"\x7d```" ++ "\n```") =
      .error .malformedPayload ∧
    parseResponse default_labels
        ("```json\n" ++ "\x7b\"label\": \"Other\"\x7d```" ++ "\n```") ≠
      parseResponse default_labels "\x7b\"label\": \"Other\"\x7d```" := by
  have ha : parseResponse default_labels "\x7b\"label\": \"Other\"\x7d```" =
      .ok ⟨"Other", none, none⟩ := rfl
  have hb : parseResponse default_labels
      ("```json\n" ++ "\x7b\"label\": \"Other\"\x7d```" ++ "\n```") =
      .error .malformedPayload := rfl
  refine ⟨ha, hb, ?_⟩
  rw [ha, hb]
  intro h
  exact Except.noConfusion h

/-- C6 (amended): for every response body whose stripped form neither starts
nor ends with a fence marker of its own, parsing the body wrapped in a fenced
code block (triple backticks on their own lines before and after, the opening
marker optionally tagged `json`) yields the same result as parsing the bare
body. -/
theorem parse_fence_invariant (labels : List String) (s : String)
    (h1 : ¬ (fence3 <+: pyStrip s.data))
    (h2 : ¬ (fence3 <:+ pyStrip s.data)) :
    parseResponse labels ("```json\n" ++ s ++ "\n```") = parseResponse labels s ∧
    parseResponse labels ("```\n" ++ s ++ "\n```") = parseResponse labels s := by
  have hplain : stripFences s.data = pyStrip s.data := stripFences_unfenced s.data h1 h2
  unfold parseResponse
  rw [stripFences_tagged, stripFences_plain, hplain]
  exact ⟨rfl, rfl⟩

/-- C6 (amended) witness: a plain JSON body parses identically bare and
wrapped, in both fence styles. -/
theorem parse_fence_invariant_witness :
    parseResponse default_labels
        ("```json\n" ++ "\x7b\"label\": \"Feedback\"\x7d" ++ "\n```") =
      parseResponse default_labels "\x7b\"label\": \"Feedback\"\x7d" ∧
    parseResponse default_labels
        ("```\n" ++ "\x7b\"label\": \"Feedback\"\x7d" ++ "\n```") =
      parseResponse default_labels "\x7b\"label\": \"Feedback\"\x7d" :=
  parse_fence_invariant default_labels "\x7b\"label\": \"Feedback\"\x7d"
    (by decide) (by decide)

end TC
